import Mathlib

/-!
Verification of the OTP (SMS verification-code) core of this repository,
a shallow embedding of `src/modules/base/common/service_sms.go`.

The Go service talks to a Redis-like key-value store through three
operations: `GetString` (missing keys read as `""`), `SetAndExpire`
(write with a TTL) and `Del`.  The embedding models the store as a
total map from string keys to an optional (value, ttl-in-seconds)
pair, together with per-key fault oracles saying which operations
fail (Go's `error` results).  Each engine call returns the new world,
the ordered trace of store/delivery operations it performed, and its
result.  TTLs are recorded in seconds at write time (5 min = 300,
1 min = 60, 10 min = 600); expiry itself is enforced by the store and
an expired key simply reads as absent.
-/

namespace SMSSpec

/-- Decidable equality for `Except`, needed to evaluate concrete results. -/
instance {ε α : Type} [DecidableEq ε] [DecidableEq α] : DecidableEq (Except ε α) := fun x y =>
  match x, y with
  | .ok a, .ok b =>
      if h : a = b then .isTrue (by rw [h]) else .isFalse (by intro hc; cases hc; exact h rfl)
  | .error a, .error b =>
      if h : a = b then .isTrue (by rw [h]) else .isFalse (by intro hc; cases hc; exact h rfl)
  | .ok _, .error _ => .isFalse (by intro hc; cases hc)
  | .error _, .ok _ => .isFalse (by intro hc; cases hc)

/-- The world: the shared TTL key-value store plus fault oracles telling
which keys' read / write / delete operations return an error.  A store
entry is `(value, ttl-in-seconds-at-write)`. -/
structure World where
  store : String → Option (String × Nat)
  readErr : String → Bool
  writeErr : String → Bool
  delErr : String → Bool

/-- `GetString`: an absent key reads as the empty string (the Go wrapper
maps redis nil to `""`); a faulted read returns an error. -/
def getString (w : World) (k : String) : Except Unit String :=
  if w.readErr k then .error ()
  else .ok (((w.store k).map Prod.fst).getD "")

/-- `SetAndExpire`: writes `(v, ttl)` at `k`; a faulted write leaves the
store unchanged and reports the error. -/
def setOp (w : World) (k v : String) (ttl : Nat) : World × Except Unit Unit :=
  if w.writeErr k then (w, .error ())
  else ({ w with store := fun k' => if k' = k then some (v, ttl) else w.store k' }, .ok ())

/-- `Del`: removes `k`; a faulted delete leaves the store unchanged and
reports the error. -/
def delOp (w : World) (k : String) : World × Except Unit Unit :=
  if w.delErr k then (w, .error ())
  else ({ w with store := fun k' => if k' = k then none else w.store k' }, .ok ())

/-- One store-level or delivery-level operation, as attempted by the engine
(recorded in order; used to state "no reads / no writes" claims). -/
inductive Op : Type
  | get (k : String)
  | set (k v : String) (ttl : Nat)
  | del (k : String)
  | deliver (zone phone code : String)
deriving DecidableEq

/-- Typed outcomes mirroring the distinct `errors.New` results of the Go
code (plus propagated store / generator / delivery errors). -/
inductive SMSErr : Type
  /-- a store (redis) error propagated verbatim -/
  | storeErr
  /-- "发送过于频繁，请1分钟后再试" — issuance cooldown active -/
  | rateLimited
  /-- "没有找到短信提供商！" — no delivery provider configured -/
  | noProvider
  /-- "系统错误，请稍后重试" — secure code generation failed -/
  | genError
  /-- the provider's `SendSMS` error propagated verbatim -/
  | deliveryFailed
  /-- "验证失败次数过多，请10分钟后再试" — lockout mark already present -/
  | lockedOut
  /-- "验证失败次数过多，已锁定10分钟" — this call reached the threshold -/
  | lockedTriggered
  /-- "验证码无效！" — wrong or absent/expired code, under threshold -/
  | invalidCode
deriving DecidableEq

/-- Both lockout-flavoured errors are the spec's `TooManyAttempts` kind. -/
def SMSErr.isTooManyAttempts : SMSErr → Bool
  | .lockedOut => true
  | .lockedTriggered => true
  | _ => false

/-- Result of one engine call: final world, ordered operation trace, and
the call's returned value. -/
structure Outcome where
  world : World
  trace : List Op
  result : Except SMSErr Unit

/-- `fmt.Sprintf("sms_rate_limit:%s@%s", zone, phone)` -/
def rateLimitKey (zone phone : String) : String :=
  "sms_rate_limit:" ++ zone ++ "@" ++ phone

/-- `fmt.Sprintf("sms_verify_lock:%s@%s", zone, phone)` -/
def lockKey (zone phone : String) : String :=
  "sms_verify_lock:" ++ zone ++ "@" ++ phone

/-- `fmt.Sprintf("sms_verify_fail:%s@%s", zone, phone)` -/
def failCountKey (zone phone : String) : String :=
  "sms_verify_fail:" ++ zone ++ "@" ++ phone

/-- Modelled from the spec: the constant `CacheKeySMSCode` is defined in the
library code outside the provided sources; the spec only says keys are
"namespaced strings combining a fixed prefix, purpose tag, zone, and phone
number", so a fixed representative prefix is used. -/
def CacheKeySMSCode : String := "sms_code:"

/-- `fmt.Sprintf("%s%d@%s@%s", CacheKeySMSCode, codeType, zone, phone)`;
`CodeType` is a Go `int`, modelled as `Int` (`%d` = `toString`). -/
def cacheKey (codeType : Int) (zone phone : String) : String :=
  CacheKeySMSCode ++ toString codeType ++ "@" ++ zone ++ "@" ++ phone

/-- `subtle.ConstantTimeCompare([]byte(a), []byte(b)) == 1`: true exactly
when the UTF-8 byte sequences are equal, i.e. when the strings are equal
(the constant-time aspect is a timing property, not a functional one). -/
def constantTimeCompare (a b : String) : Bool := a == b

/-- `strconv.Atoi`: optional sign, one or more decimal digits, value within
the 64-bit `int` range; anything else is an error (`none`). -/
def atoi? (s : String) : Option Int :=
  let core : List Char → Option Nat := fun ds =>
    if ds.isEmpty then none
    else if ds.all (fun c => c.isDigit) then
      some (ds.foldl (fun acc c => acc * 10 + (c.toNat - 48)) 0)
    else none
  let signed : Option Int :=
    match s.data with
    | '+' :: rest => (core rest).map (fun n => (n : Int))
    | '-' :: rest => (core rest).map (fun n => -(n : Int))
    | ds => (core ds).map (fun n => (n : Int))
  match signed with
  | none => none
  | some v => if -(2 ^ 63) ≤ v ∧ v ≤ 2 ^ 63 - 1 then some v else none

/-- Lines 149–154 of `service_sms.go`: `failCount := 0; if failCountStr != ""
{ if count, err := strconv.Atoi(failCountStr); err == nil { failCount =
count } }` — an empty, unreadable or unparseable stored count is 0. -/
def parseFailCount (s : String) : Int :=
  if s != "" then (atoi? s).getD 0 else 0

/-- Two's-complement wrap-around of Go's 64-bit `int`: `failCount++`
overflows, so incrementing `2^63 - 1` yields `-2^63` rather than `2^63`. -/
def int64Wrap (n : Int) : Int := (n + 2 ^ 63) % 2 ^ 64 - 2 ^ 63

/-- The configured SMS provider name (`config.SMSProvider`); `unset` covers
the empty / unrecognized configuration on which the Go `switch` selects
nothing. -/
inductive SMSProviderName : Type
  | aliyun
  | unisms
  | smsbao
  | unset
deriving DecidableEq

/-- The slice of the service configuration that `SendVerifyCode` consults. -/
structure Config where
  smsProvider : SMSProviderName
  aliyunInternationalAccessKeyID : String

/-- The concrete provider implementations constructed by the `switch`. -/
inductive Provider : Type
  | aliyunInternational
  | aliyun
  | unisms
  | smsbao
deriving DecidableEq

/-- Lines 57–73 of `service_sms.go`: the provider `switch`; `none` means the
`smsProvider == nil` check fires. -/
def resolveProvider (cfg : Config) (zone : String) : Option Provider :=
  match cfg.smsProvider with
  | .aliyun =>
      if zone != "0086" && cfg.aliyunInternationalAccessKeyID != "" then
        some .aliyunInternational
      else
        some .aliyun
  | .unisms => some .unisms
  | .smsbao => some .smsbao
  | .unset => none

/-- Environment of one `SendVerifyCode` call: the configuration, the outcome
of the `crypto/rand`-backed `generateSecureVerifyCode(4)` call (an oracle,
since the randomness source is external), and whether the provider's
`SendSMS` delivery succeeds. -/
structure SendEnv where
  cfg : Config
  genResult : Except Unit String
  deliverOk : Bool

/-- `SendVerifyCode` (lines 45–101 of `service_sms.go`): rate-limit check,
provider resolution, secure code generation, store the code (5-min TTL),
set the cooldown mark (1-min TTL), then attempt delivery. -/
def SendVerifyCode (env : SendEnv) (w : World) (zone phone : String) (codeType : Int) :
    Outcome :=
  let rlk := rateLimitKey zone phone
  match getString w rlk with
  | .error _ => ⟨w, [.get rlk], .error .storeErr⟩
  | .ok ex =>
    if ex != "" then ⟨w, [.get rlk], .error .rateLimited⟩
    else
      match resolveProvider env.cfg zone with
      | none => ⟨w, [.get rlk], .error .noProvider⟩
      | some _ =>
        match env.genResult with
        | .error _ => ⟨w, [.get rlk], .error .genError⟩
        | .ok verifyCode =>
          let ck := cacheKey codeType zone phone
          let (w1, r1) := setOp w ck verifyCode 300
          match r1 with
          | .error _ => ⟨w1, [.get rlk, .set ck verifyCode 300], .error .storeErr⟩
          | .ok _ =>
            let (w2, r2) := setOp w1 rlk "1" 60
            match r2 with
            | .error _ =>
                ⟨w2, [.get rlk, .set ck verifyCode 300, .set rlk "1" 60], .error .storeErr⟩
            | .ok _ =>
                ⟨w2,
                 [.get rlk, .set ck verifyCode 300, .set rlk "1" 60,
                  .deliver zone phone verifyCode],
                 if env.deliverOk then .ok () else .error .deliveryFailed⟩

/-- `Verify` (lines 118–169 of `service_sms.go`): lockout check first; then
code lookup and constant-time comparison; on success delete the code, the
failure count and the lock (ignoring their errors); on failure re-read the
count, increment with Go's wrapping 64-bit `int` arithmetic, and either
lock (count ≥ 3, the count itself is NOT rewritten — the
`Del(failCountKey)` on line 160 is commented out) or rewrite the count
with a fresh 10-min TTL (write errors ignored). -/
def Verify (w : World) (zone phone code : String) (codeType : Int) : Outcome :=
  let lk := lockKey zone phone
  match getString w lk with
  | .error _ => ⟨w, [.get lk], .error .storeErr⟩
  | .ok locked =>
    if locked != "" then ⟨w, [.get lk], .error .lockedOut⟩
    else
      let ck := cacheKey codeType zone phone
      match getString w ck with
      | .error _ => ⟨w, [.get lk, .get ck], .error .storeErr⟩
      | .ok sysCode =>
        if sysCode != "" && constantTimeCompare sysCode code then
          let fck := failCountKey zone phone
          let (w1, _) := delOp w ck
          let (w2, _) := delOp w1 fck
          let (w3, _) := delOp w2 lk
          ⟨w3, [.get lk, .get ck, .del ck, .del fck, .del lk], .ok ()⟩
        else
          let fck := failCountKey zone phone
          let failCountStr :=
            match getString w fck with
            | .error _ => ""
            | .ok v => v
          let failCount := int64Wrap (parseFailCount failCountStr + 1)
          if failCount ≥ 3 then
            let (w1, _) := setOp w lk "1" 600
            ⟨w1, [.get lk, .get ck, .get fck, .set lk "1" 600], .error .lockedTriggered⟩
          else
            let (w1, _) := setOp w fck (toString failCount) 600
            ⟨w1, [.get lk, .get ck, .get fck, .set fck (toString failCount) 600],
             .error .invalidCode⟩

/-- A world whose store operations all succeed (normal operation; the spec's
store errors are "propagated verbatim" and out of scope of the functional
claims). -/
def healthy (w : World) : Prop :=
  (∀ k, w.readErr k = false) ∧ (∀ k, w.writeErr k = false) ∧ (∀ k, w.delErr k = false)

/-- Fault oracle that never fails. -/
def noErr : String → Bool := fun _ => false

/-- Empty, fault-free world. -/
def w0 : World := ⟨fun _ => none, noErr, noErr, noErr⟩

/-- World with the lockout mark set for ("z","p") and a stored code "1234"
for purpose 0. -/
def wLocked : World :=
  ⟨fun k =>
    if k = lockKey "z" "p" then some ("1", 600)
    else if k = cacheKey 0 "z" "p" then some ("1234", 300)
    else none,
   noErr, noErr, noErr⟩

/-- World holding only the stored code "1234" for ("z","p"), purpose 0. -/
def wCode : World :=
  ⟨fun k => if k = cacheKey 0 "z" "p" then some ("1234", 300) else none,
   noErr, noErr, noErr⟩

/-- World holding only a failure count of "2" for ("z","p"). -/
def wCount2 : World :=
  ⟨fun k => if k = failCountKey "z" "p" then some ("2", 600) else none,
   noErr, noErr, noErr⟩

/-- World holding only the stored code "9999" for ("z","p"), purpose 0. -/
def wWrongCode : World :=
  ⟨fun k => if k = cacheKey 0 "z" "p" then some ("9999", 300) else none,
   noErr, noErr, noErr⟩

/-- World holding only an unparseable failure count "abc" for ("z","p"). -/
def wBadCount : World :=
  ⟨fun k => if k = failCountKey "z" "p" then some ("abc", 600) else none,
   noErr, noErr, noErr⟩

/-- Fault-free world except that reading the failure-count key for
("z","p") errors. -/
def wReadErrCount : World :=
  ⟨fun _ => none, fun k => k = failCountKey "z" "p", noErr, noErr⟩

/-- World holding the stored code "1234" for ("z","p") purpose 0, in which
every delete operation fails. -/
def wDelErr : World :=
  ⟨fun k => if k = cacheKey 0 "z" "p" then some ("1234", 300) else none,
   noErr, noErr, fun _ => true⟩

/-- World with the issuance cooldown mark set for ("z","p"). -/
def wRateMark : World :=
  ⟨fun k => if k = rateLimitKey "z" "p" then some ("1", 60) else none,
   noErr, noErr, noErr⟩

/-- Environment with a configured provider, successful code generation and
successful delivery. -/
def envOK : SendEnv := ⟨⟨.unisms, ""⟩, .ok "4321", true⟩

/-- Environment with a configured provider and successful code generation
whose delivery fails. -/
def envFail : SendEnv := ⟨⟨.unisms, ""⟩, .ok "4321", false⟩

/-- Environment with no configured provider (the `switch` selects nothing). -/
def envNP : SendEnv := ⟨⟨.unset, ""⟩, .ok "4321", true⟩

/-- Control point of one in-flight `Verify` call, between its store
operations.  Each constructor records exactly the data the Go function
holds in local variables at that point. -/
inductive VState : Type
  | vstart
  | afterLock (locked : String)
  | afterCode (sysCode : String)
  | succDelFail
  | succDelLock
  | afterFail (failCountStr : String)
  | halted (r : Except SMSErr Unit)
deriving DecidableEq

/-- One step of an in-flight `Verify` call: each step performs at most one
store operation, exactly the next one the Go code would issue, together
with the pure computation leading to it.  Running the steps back-to-back
is `Verify` itself (`vExec_is_Verify`); interleaving the steps of two
calls models their concurrent execution against the shared store. -/
def vStep (zone phone code : String) (codeType : Int) :
    VState → World → VState × World
  | .vstart, w =>
    (match getString w (lockKey zone phone) with
     | .error _ => (.halted (.error .storeErr), w)
     | .ok locked => (.afterLock locked, w))
  | .afterLock locked, w =>
    if locked != "" then (.halted (.error .lockedOut), w)
    else
      (match getString w (cacheKey codeType zone phone) with
       | .error _ => (.halted (.error .storeErr), w)
       | .ok sysCode => (.afterCode sysCode, w))
  | .afterCode sysCode, w =>
    if sysCode != "" && constantTimeCompare sysCode code then
      let (w1, _) := delOp w (cacheKey codeType zone phone)
      (.succDelFail, w1)
    else
      (match getString w (failCountKey zone phone) with
       | .error _ => (.afterFail "", w)
       | .ok v => (.afterFail v, w))
  | .succDelFail, w =>
      let (w1, _) := delOp w (failCountKey zone phone)
      (.succDelLock, w1)
  | .succDelLock, w =>
      let (w1, _) := delOp w (lockKey zone phone)
      (.halted (.ok ()), w1)
  | .afterFail failCountStr, w =>
      let failCount := int64Wrap (parseFailCount failCountStr + 1)
      if failCount ≥ 3 then
        let (w1, _) := setOp w (lockKey zone phone) "1" 600
        (.halted (.error .lockedTriggered), w1)
      else
        let (w1, _) := setOp w (failCountKey zone phone) (toString failCount) 600
        (.halted (.error .invalidCode), w1)
  | .halted r, w => (.halted r, w)

/-- Five uninterrupted steps of one `Verify` call (enough to halt on every
path). -/
def vExec (zone phone code : String) (codeType : Int) (w : World) : VState × World :=
  let s1 := vStep zone phone code codeType .vstart w
  let s2 := vStep zone phone code codeType s1.1 s1.2
  let s3 := vStep zone phone code codeType s2.1 s2.2
  let s4 := vStep zone phone code codeType s3.1 s3.2
  vStep zone phone code codeType s4.1 s4.2

/-- Interleaved execution of two `Verify` calls A and B for the same
identity against the shared store: the schedule says whose next store
operation runs. -/
def interleave2 (zone phone codeA : String) (ctA : Int) (codeB : String) (ctB : Int) :
    List Bool → VState → VState → World → VState × VState × World
  | [], a, b, w => (a, b, w)
  | true :: rest, a, b, w =>
      let (a', w') := vStep zone phone codeA ctA a w
      interleave2 zone phone codeA ctA codeB ctB rest a' b w'
  | false :: rest, a, b, w =>
      let (b', w') := vStep zone phone codeB ctB b w
      interleave2 zone phone codeA ctA codeB ctB rest a b' w'

/-- Schedule in which both calls read the failure count before either
writes it: A runs up to and including its count read, then B does the
same, then each performs its count write. -/
def staleSched : List Bool := [true, true, true, false, false, false, true, false]

end SMSSpec

namespace SMSSpec

/-- Claim C3: whenever the lockout mark is present for an identity (and its
read succeeds), every `Verify` call — for any purpose and any presented
code — returns the lockout error (a `TooManyAttempts` kind) with a trace
consisting of the single lock read: no stored-code read, no writes, no
deletes, and the world is returned unchanged. -/
theorem C3_lockout_short_circuit (w : World) (zone phone code : String) (codeType : Int)
    (hre : w.readErr (lockKey zone phone) = false)
    (v : String) (t : Nat)
    (hmark : w.store (lockKey zone phone) = some (v, t)) (hv : v ≠ "") :
    Verify w zone phone code codeType =
      ⟨w, [.get (lockKey zone phone)], .error .lockedOut⟩ := by
  have hg : getString w (lockKey zone phone) = .ok v := by
    simp [getString, hre, hmark]
  simp only [Verify, hg]
  simp [hv]

/-- Witness for C3 at the concrete locked world. -/
theorem C3_witness :
    wLocked.readErr (lockKey "z" "p") = false ∧
    wLocked.store (lockKey "z" "p") = some ("1", 600) ∧
    ("1" : String) ≠ "" ∧
    Verify wLocked "z" "p" "1234" 0 =
      ⟨wLocked, [.get (lockKey "z" "p")], .error .lockedOut⟩ :=
  ⟨rfl, by decide, by decide,
   C3_lockout_short_circuit wLocked "z" "p" "1234" 0 rfl "1" 600 (by decide) (by decide)⟩

/-- Counterexample to claim C1 as stated: in `wLocked` a stored code for
("z","p") purpose 0 is present and the presented code "1234" equals it
byte-for-byte, yet `Verify` does not succeed — the lockout mark takes
precedence and the call fails with the `TooManyAttempts`-kind error. -/
theorem C1_counterexample :
    wLocked.store (cacheKey 0 "z" "p") = some ("1234", 300) ∧
    (Verify wLocked "z" "p" "1234" 0).result = .error .lockedOut := by
  constructor
  · decide
  · decide

/-- Claim C1 (amended: provided the lockout mark is absent and the store is
fault-free): if a stored code is present and the presented code equals it,
`Verify` succeeds, deletes the stored code, the failure count and the
lockout key, and an immediately repeated `Verify` with the same value fails
with `InvalidCode` because the code was consumed. -/
theorem C1_success_consumes_once (w : World) (zone phone code : String) (codeType : Int)
    (hh : healthy w)
    (hnl : w.store (lockKey zone phone) = none)
    (t : Nat)
    (hcode : w.store (cacheKey codeType zone phone) = some (code, t))
    (hne : code ≠ "") :
    (Verify w zone phone code codeType).result = .ok () ∧
    (Verify w zone phone code codeType).world.store (cacheKey codeType zone phone) = none ∧
    (Verify w zone phone code codeType).world.store (failCountKey zone phone) = none ∧
    (Verify w zone phone code codeType).world.store (lockKey zone phone) = none ∧
    (Verify (Verify w zone phone code codeType).world zone phone code codeType).result =
      .error .invalidCode := by
  obtain ⟨hr, hw, hd⟩ := hh
  have hgl : getString w (lockKey zone phone) = .ok "" := by
    simp [getString, hr, hnl]
  have hgc : getString w (cacheKey codeType zone phone) = .ok code := by
    simp [getString, hr, hcode]
  have hb : (code != "" && constantTimeCompare code code) = true := by
    simp [constantTimeCompare, hne]
  simp only [Verify, hgl, hgc, hb, bne_self_eq_false, Bool.false_eq_true, reduceIte, if_true]
  simp only [delOp, hd, Bool.false_eq_true, reduceIte]
  refine ⟨trivial, ?_, ?_, trivial, ?_⟩
  · split_ifs <;> rfl
  · split_ifs <;> rfl
  · have hgl' : getString
        { w with store := fun k' =>
            if k' = lockKey zone phone then none
            else if k' = failCountKey zone phone then none
            else if k' = cacheKey codeType zone phone then none
            else w.store k' } (lockKey zone phone) = .ok ("" : String) := by
      simp [getString, hr]
    have hgc' : getString
        { w with store := fun k' =>
            if k' = lockKey zone phone then none
            else if k' = failCountKey zone phone then none
            else if k' = cacheKey codeType zone phone then none
            else w.store k' } (cacheKey codeType zone phone) = .ok ("" : String) := by
      simp only [getString, hr, Bool.false_eq_true, reduceIte]
      split_ifs <;> simp_all
    have hgf' : getString
        { w with store := fun k' =>
            if k' = lockKey zone phone then none
            else if k' = failCountKey zone phone then none
            else if k' = cacheKey codeType zone phone then none
            else w.store k' } (failCountKey zone phone) = .ok ("" : String) := by
      simp only [getString, hr, Bool.false_eq_true, reduceIte]
      split_ifs <;> simp_all
    simp only [Verify, hgl', hgc', hgf', bne_self_eq_false, Bool.false_eq_true, reduceIte,
      Bool.false_and]
    rw [if_neg (by decide : ¬ int64Wrap (parseFailCount "" + 1) ≥ 3)]

/-- Witness for the amended C1 at the concrete world holding code "1234". -/
theorem C1_witness :
    healthy wCode ∧
    wCode.store (lockKey "z" "p") = none ∧
    wCode.store (cacheKey 0 "z" "p") = some ("1234", 300) ∧
    ("1234" : String) ≠ "" ∧
    ((Verify wCode "z" "p" "1234" 0).result = .ok () ∧
     (Verify wCode "z" "p" "1234" 0).world.store (cacheKey 0 "z" "p") = none ∧
     (Verify wCode "z" "p" "1234" 0).world.store (failCountKey "z" "p") = none ∧
     (Verify wCode "z" "p" "1234" 0).world.store (lockKey "z" "p") = none ∧
     (Verify (Verify wCode "z" "p" "1234" 0).world "z" "p" "1234" 0).result =
       .error .invalidCode) :=
  ⟨⟨fun _ => rfl, fun _ => rfl, fun _ => rfl⟩, by decide, by decide, by decide,
   C1_success_consumes_once wCode "z" "p" "1234" 0
     ⟨fun _ => rfl, fun _ => rfl, fun _ => rfl⟩ (by decide) 300 (by decide) (by decide)⟩

/-- `(s ++ t).data = s.data ++ t.data` (by cases on the string structures). -/
theorem data_append_eq (s t : String) : (s ++ t).data = s.data ++ t.data := by
  cases s; cases t; rfl

/-- The failure-count key and the lockout key never coincide: their fixed
16-character prefixes differ. -/
theorem failCountKey_ne_lockKey (zone phone : String) :
    failCountKey zone phone ≠ lockKey zone phone := by
  intro h
  have hd : ("sms_verify_fail:" : String).data ++ (zone.data ++ ("@" : String).data ++ phone.data) =
      ("sms_verify_lock:" : String).data ++ (zone.data ++ ("@" : String).data ++ phone.data) := by
    have := congrArg String.data h
    simpa [failCountKey, lockKey, data_append_eq, List.append_assoc] using this
  have h16 := congrArg (List.take 16) hd
  rw [List.take_left' (by decide), List.take_left' (by decide)] at h16
  exact absurd h16 (by decide)

/-- The code key never coincides with the rate-limit key: the code key
starts with `"sms_code:"` while the rate-limit key starts with
`"sms_rate_limit:"`, and these differ within the first 9 characters. -/
theorem cacheKey_ne_rateLimitKey (codeType : Int) (zone phone : String) :
    cacheKey codeType zone phone ≠ rateLimitKey zone phone := by
  intro h
  have hd : ("sms_code:" : String).data ++
        ((toString codeType).data ++ ("@" : String).data ++ zone.data ++
          ("@" : String).data ++ phone.data) =
      ("sms_rate_limit:" : String).data ++ (zone.data ++ ("@" : String).data ++ phone.data) := by
    have := congrArg String.data h
    simpa [cacheKey, rateLimitKey, CacheKeySMSCode, data_append_eq, List.append_assoc] using this
  have h9 := congrArg (List.take 9) hd
  rw [List.take_left' (by decide),
    List.take_append_of_le_length (by decide)] at h9
  exact absurd h9 (by decide)

/-- Claim C2: for a failed verification by a non-locked identity (for any
purpose — the count key is purpose-independent), with `n` the incremented
count: if `n < 3` the call fails with `InvalidCode`, rewrites the count to
`n` with a fresh 10-minute TTL and changes nothing else; if `n ≥ 3` the
call fails with the freshly-triggered `TooManyAttempts` error, writes only
the 10-minute lockout mark (the trace shows no failure-count write, and
every key other than the lock key is unchanged). -/
theorem C2_failure_threshold (w : World) (zone phone code : String) (codeType : Int)
    (hnl : getString w (lockKey zone phone) = .ok "")
    (sysCode : String)
    (hsc : getString w (cacheKey codeType zone phone) = .ok sysCode)
    (hfail : (sysCode != "" && constantTimeCompare sysCode code) = false)
    (fs : String)
    (hfs : getString w (failCountKey zone phone) = .ok fs)
    (hwf : w.writeErr (failCountKey zone phone) = false)
    (hwl : w.writeErr (lockKey zone phone) = false) :
    (int64Wrap (parseFailCount fs + 1) < 3 →
      (Verify w zone phone code codeType).result = .error .invalidCode ∧
      (Verify w zone phone code codeType).world.store (failCountKey zone phone) =
        some (toString (int64Wrap (parseFailCount fs + 1)), 600) ∧
      (∀ k, k ≠ failCountKey zone phone →
        (Verify w zone phone code codeType).world.store k = w.store k) ∧
      (Verify w zone phone code codeType).trace =
        [.get (lockKey zone phone), .get (cacheKey codeType zone phone),
         .get (failCountKey zone phone),
         .set (failCountKey zone phone) (toString (int64Wrap (parseFailCount fs + 1))) 600]) ∧
    (3 ≤ int64Wrap (parseFailCount fs + 1) →
      (Verify w zone phone code codeType).result = .error .lockedTriggered ∧
      SMSErr.lockedTriggered.isTooManyAttempts = true ∧
      (Verify w zone phone code codeType).world.store (lockKey zone phone) =
        some ("1", 600) ∧
      (∀ k, k ≠ lockKey zone phone →
        (Verify w zone phone code codeType).world.store k = w.store k) ∧
      (Verify w zone phone code codeType).trace =
        [.get (lockKey zone phone), .get (cacheKey codeType zone phone),
         .get (failCountKey zone phone), .set (lockKey zone phone) "1" 600]) := by
  simp only [Verify, hnl, hsc, hfail, hfs, bne_self_eq_false, Bool.false_eq_true, reduceIte]
  constructor
  · intro hlt
    rw [if_neg (by omega)]
    simp only [setOp, hwf, Bool.false_eq_true, reduceIte]
    refine ⟨?_, ?_, ?_, ?_⟩
    · trivial
    · trivial
    · intro k hk
      simp [hk]
    · trivial
  · intro hge
    rw [if_pos (by omega)]
    simp only [setOp, hwl, Bool.false_eq_true, reduceIte]
    refine ⟨?_, ?_, ?_, ?_, ?_⟩
    · trivial
    · trivial
    · trivial
    · intro k hk
      simp [hk]
    · trivial

/-- Witness for C2: both branches exercised — at the empty world a wrong
code yields `InvalidCode` with count "1"; at the world holding count "2" a
wrong code triggers the lock and rewrites nothing else. -/
theorem C2_witness :
    (getString w0 (lockKey "z" "p") = .ok "" ∧
     int64Wrap (parseFailCount "" + 1) < 3 ∧
     (Verify w0 "z" "p" "0000" 0).result = .error .invalidCode ∧
     (Verify w0 "z" "p" "0000" 0).world.store (failCountKey "z" "p") =
       some (toString (int64Wrap (parseFailCount "" + 1)), 600)) ∧
    (getString wCount2 (failCountKey "z" "p") = .ok "2" ∧
     3 ≤ int64Wrap (parseFailCount "2" + 1) ∧
     (Verify wCount2 "z" "p" "0000" 0).result = .error .lockedTriggered ∧
     (Verify wCount2 "z" "p" "0000" 0).world.store (lockKey "z" "p") = some ("1", 600) ∧
     (Verify wCount2 "z" "p" "0000" 0).trace =
       [.get (lockKey "z" "p"), .get (cacheKey 0 "z" "p"),
        .get (failCountKey "z" "p"), .set (lockKey "z" "p") "1" 600]) := by
  constructor
  · refine ⟨by decide, by decide, ?_, ?_⟩
    · exact ((C2_failure_threshold w0 "z" "p" "0000" 0 (by decide) "" (by decide) (by decide)
        "" (by decide) rfl rfl).1 (by decide)).1
    · exact ((C2_failure_threshold w0 "z" "p" "0000" 0 (by decide) "" (by decide) (by decide)
        "" (by decide) rfl rfl).1 (by decide)).2.1
  · refine ⟨by decide, by decide, ?_, ?_, ?_⟩
    · exact ((C2_failure_threshold wCount2 "z" "p" "0000" 0 (by decide) "" (by decide)
        (by decide) "2" (by decide) rfl rfl).2 (by decide)).1
    · exact ((C2_failure_threshold wCount2 "z" "p" "0000" 0 (by decide) "" (by decide)
        (by decide) "2" (by decide) rfl rfl).2 (by decide)).2.2.1
    · exact ((C2_failure_threshold wCount2 "z" "p" "0000" 0 (by decide) "" (by decide)
        (by decide) "2" (by decide) rfl rfl).2 (by decide)).2.2.2.2

/-- Counterexample to claim C7 as stated: starting from a failure count of
"2" and no lock, a third failed `Verify` writes the lockout mark but does
NOT remove the failure count (the `Del(failCountKey)` is commented out in
the source), so both records are present after the operation completes. -/
theorem C7_counterexample :
    (Verify wCount2 "z" "p" "0000" 0).world.store (failCountKey "z" "p") =
      some ("2", 600) ∧
    (Verify wCount2 "z" "p" "0000" 0).world.store (lockKey "z" "p") =
      some ("1", 600) := by
  constructor
  · decide
  · decide

/-- Claim C7 (amended): the `Verify` call that reaches the threshold writes
the lockout mark and leaves the stored failure count exactly as it was
(it is left to expire naturally), so the two records are simultaneously
present whenever a count was stored before the triggering call. -/
theorem C7_lock_leaves_count (w : World) (zone phone code : String) (codeType : Int)
    (hnl : getString w (lockKey zone phone) = .ok "")
    (sysCode : String)
    (hsc : getString w (cacheKey codeType zone phone) = .ok sysCode)
    (hfail : (sysCode != "" && constantTimeCompare sysCode code) = false)
    (fs : String)
    (hfs : getString w (failCountKey zone phone) = .ok fs)
    (h3 : 3 ≤ int64Wrap (parseFailCount fs + 1))
    (hwl : w.writeErr (lockKey zone phone) = false) :
    (Verify w zone phone code codeType).world.store (failCountKey zone phone) =
      w.store (failCountKey zone phone) ∧
    (Verify w zone phone code codeType).world.store (lockKey zone phone) =
      some ("1", 600) := by
  simp only [Verify, hnl, hsc, hfail, hfs, bne_self_eq_false, Bool.false_eq_true, reduceIte]
  rw [if_pos (by omega)]
  simp only [setOp, hwl, Bool.false_eq_true, reduceIte]
  constructor
  · simp [failCountKey_ne_lockKey zone phone]
  · simp

/-- Witness for the amended C7 at the concrete world holding count "2":
after the triggering call both the old count and the fresh lock are in the
store. -/
theorem C7_witness :
    getString wCount2 (lockKey "z" "p") = .ok "" ∧
    3 ≤ int64Wrap (parseFailCount "2" + 1) ∧
    ((Verify wCount2 "z" "p" "0000" 0).world.store (failCountKey "z" "p") =
       wCount2.store (failCountKey "z" "p") ∧
     (Verify wCount2 "z" "p" "0000" 0).world.store (lockKey "z" "p") =
       some ("1", 600)) :=
  ⟨by decide, by decide,
   C7_lock_leaves_count wCount2 "z" "p" "0000" 0 (by decide) "" (by decide) (by decide)
     "2" (by decide) (by decide) rfl⟩

/-- Helper: a `SendVerifyCode` call that returns success has written the
issuance cooldown mark "1" with its 1-minute TTL, and it never alters the
fault oracles. -/
theorem send_ok_marks (env : SendEnv) (w : World) (zone phone : String) (ct : Int)
    (hw : ∀ k, w.writeErr k = false)
    (hok : (SendVerifyCode env w zone phone ct).result = .ok ()) :
    (SendVerifyCode env w zone phone ct).world.store (rateLimitKey zone phone) =
      some ("1", 60) ∧
    (SendVerifyCode env w zone phone ct).world.readErr = w.readErr := by
  rcases hg : getString w (rateLimitKey zone phone) with u | ex
  · simp only [SendVerifyCode, hg] at hok
    exact (Except.noConfusion hok)
  · simp only [SendVerifyCode, hg] at hok ⊢
    by_cases hex : (ex != "") = true
    · rw [if_pos hex] at hok
      simp at hok
    · rw [if_neg hex] at hok ⊢
      rcases hp : resolveProvider env.cfg zone with _ | prov
      · rw [hp] at hok
        simp at hok
      · rw [hp] at hok
        rcases hgen : env.genResult with u | vc
        · rw [hgen] at hok
          simp at hok
        · rw [hgen] at hok
          simp only [setOp, hw, Bool.false_eq_true, reduceIte] at hok ⊢
          exact ⟨by simp, trivial⟩

/-- Claim C4: (1) if the cooldown mark is present for an identity,
`SendVerifyCode` fails with `RateLimited`, its trace is the single mark
read (so nothing else is read, written or delivered) and the world is
returned unchanged; (2) the mark is keyed by identity alone, so
immediately after any successful issuance, a second issuance request for
the same identity — under any environment and any purpose — fails with
`RateLimited`. -/
theorem C4_rate_limited :
    (∀ (env : SendEnv) (w : World) (zone phone : String) (codeType : Int)
       (v : String) (t : Nat),
      w.readErr (rateLimitKey zone phone) = false →
      w.store (rateLimitKey zone phone) = some (v, t) → v ≠ "" →
      SendVerifyCode env w zone phone codeType =
        ⟨w, [.get (rateLimitKey zone phone)], .error .rateLimited⟩) ∧
    (∀ (env env₂ : SendEnv) (w : World) (zone phone : String) (ct₁ ct₂ : Int),
      healthy w →
      (SendVerifyCode env w zone phone ct₁).result = .ok () →
      (SendVerifyCode env₂ (SendVerifyCode env w zone phone ct₁).world zone phone ct₂).result =
        .error .rateLimited) := by
  constructor
  · intro env w zone phone codeType v t hre hmark hv
    have hg : getString w (rateLimitKey zone phone) = .ok v := by
      simp [getString, hre, hmark]
    simp only [SendVerifyCode, hg]
    simp [hv]
  · intro env env₂ w zone phone ct₁ ct₂ hh hok
    obtain ⟨hr, hwr, hd⟩ := hh
    obtain ⟨hm, hre⟩ := send_ok_marks env w zone phone ct₁ hwr hok
    set w' := (SendVerifyCode env w zone phone ct₁).world with hw'
    have hg : getString w' (rateLimitKey zone phone) = .ok "1" := by
      simp [getString, hre, hr, hm]
    simp only [SendVerifyCode, hg]
    simp

/-- Witness for C4: part (1) at the concrete world carrying the cooldown
mark; part (2) after a concrete successful issuance for purpose 1,
re-issuing for purpose 2 is throttled. -/
theorem C4_witness :
    (wRateMark.store (rateLimitKey "z" "p") = some ("1", 60) ∧
     SendVerifyCode envOK wRateMark "z" "p" 0 =
       ⟨wRateMark, [.get (rateLimitKey "z" "p")], .error .rateLimited⟩) ∧
    ((SendVerifyCode envOK w0 "z" "p" 1).result = .ok () ∧
     (SendVerifyCode envFail (SendVerifyCode envOK w0 "z" "p" 1).world "z" "p" 2).result =
       .error .rateLimited) :=
  ⟨⟨by decide,
    C4_rate_limited.1 envOK wRateMark "z" "p" 0 "1" 60 rfl (by decide) (by decide)⟩,
   ⟨by decide,
    C4_rate_limited.2 envOK envFail w0 "z" "p" 1 2
      ⟨fun _ => rfl, fun _ => rfl, fun _ => rfl⟩ (by decide)⟩⟩

/-- Claim C5: (1) past the throttle check, if no delivery provider is
configured the call fails with `NoProviderConfigured`, its trace is the
single throttle read and the world is unchanged — neither the code nor the
cooldown mark is written; (2) if a provider resolves and code generation
yields `v`, the code (5-minute TTL) and the cooldown mark (1-minute TTL)
are both written before the delivery attempt (the trace shows both `set`s
preceding the `deliver`), and the result is success or `DeliveryFailed`
according to the delivery outcome while both writes remain in place. -/
theorem C5_provider_path :
    (∀ (env : SendEnv) (w : World) (zone phone : String) (codeType : Int),
      getString w (rateLimitKey zone phone) = .ok "" →
      resolveProvider env.cfg zone = none →
      SendVerifyCode env w zone phone codeType =
        ⟨w, [.get (rateLimitKey zone phone)], .error .noProvider⟩) ∧
    (∀ (env : SendEnv) (w : World) (zone phone : String) (codeType : Int) (v : String),
      (∀ k, w.writeErr k = false) →
      getString w (rateLimitKey zone phone) = .ok "" →
      (∃ p, resolveProvider env.cfg zone = some p) →
      env.genResult = .ok v →
      (SendVerifyCode env w zone phone codeType).trace =
        [.get (rateLimitKey zone phone), .set (cacheKey codeType zone phone) v 300,
         .set (rateLimitKey zone phone) "1" 60, .deliver zone phone v] ∧
      (SendVerifyCode env w zone phone codeType).world.store (cacheKey codeType zone phone) =
        some (v, 300) ∧
      (SendVerifyCode env w zone phone codeType).world.store (rateLimitKey zone phone) =
        some ("1", 60) ∧
      (SendVerifyCode env w zone phone codeType).result =
        (if env.deliverOk then .ok () else .error .deliveryFailed)) := by
  constructor
  · intro env w zone phone codeType hg hp
    simp only [SendVerifyCode, hg, hp]
    simp
  · intro env w zone phone codeType v hw hg hp hgen
    obtain ⟨p, hp⟩ := hp
    simp only [SendVerifyCode, hg, hp, hgen, bne_self_eq_false, Bool.false_eq_true, reduceIte]
    simp only [setOp, hw, Bool.false_eq_true, reduceIte]
    refine ⟨trivial, ?_, ?_, trivial⟩
    · simp [cacheKey_ne_rateLimitKey codeType zone phone]
    · simp

/-- Witness for C5: part (1) with the unset-provider environment; part (2)
with a failing delivery, showing both writes in place and the propagated
`DeliveryFailed`. -/
theorem C5_witness :
    (getString w0 (rateLimitKey "z" "p") = .ok "" ∧
     SendVerifyCode envNP w0 "z" "p" 0 =
       ⟨w0, [.get (rateLimitKey "z" "p")], .error .noProvider⟩) ∧
    (envFail.genResult = .ok "4321" ∧
     ((SendVerifyCode envFail w0 "z" "p" 0).trace =
        [.get (rateLimitKey "z" "p"), .set (cacheKey 0 "z" "p") "4321" 300,
         .set (rateLimitKey "z" "p") "1" 60, .deliver "z" "p" "4321"] ∧
      (SendVerifyCode envFail w0 "z" "p" 0).world.store (cacheKey 0 "z" "p") =
        some ("4321", 300) ∧
      (SendVerifyCode envFail w0 "z" "p" 0).world.store (rateLimitKey "z" "p") =
        some ("1", 60) ∧
      (SendVerifyCode envFail w0 "z" "p" 0).result =
        (if envFail.deliverOk then .ok () else .error .deliveryFailed))) :=
  ⟨⟨by decide, C5_provider_path.1 envNP w0 "z" "p" 0 (by decide) (by decide)⟩,
   ⟨by decide,
    C5_provider_path.2 envFail w0 "z" "p" 0 "4321" (fun _ => rfl) (by decide)
      ⟨.unisms, by decide⟩ (by decide)⟩⟩

/-- Claim C6: for a non-locked identity, two failing `Verify` calls — one
against a world where the code is absent (or reads empty) and one where a
different code is stored — are observably identical whenever the two
worlds agree on the stored failure count: they return the same failure
result and leave identical failure-count entries. -/
theorem C6_absent_vs_wrong_identical (w₁ w₂ : World) (zone phone code : String)
    (codeType : Int)
    (hfeq : w₁.store (failCountKey zone phone) = w₂.store (failCountKey zone phone))
    (hfr₁ : w₁.readErr (failCountKey zone phone) = false)
    (hfr₂ : w₂.readErr (failCountKey zone phone) = false)
    (hw₁ : ∀ k, w₁.writeErr k = false) (hw₂ : ∀ k, w₂.writeErr k = false)
    (hnl₁ : getString w₁ (lockKey zone phone) = .ok "")
    (hnl₂ : getString w₂ (lockKey zone phone) = .ok "")
    (s₁ s₂ : String)
    (hc₁ : getString w₁ (cacheKey codeType zone phone) = .ok s₁)
    (hc₂ : getString w₂ (cacheKey codeType zone phone) = .ok s₂)
    (hf₁ : (s₁ != "" && constantTimeCompare s₁ code) = false)
    (hf₂ : (s₂ != "" && constantTimeCompare s₂ code) = false) :
    (Verify w₁ zone phone code codeType).result =
      (Verify w₂ zone phone code codeType).result ∧
    (Verify w₁ zone phone code codeType).world.store (failCountKey zone phone) =
      (Verify w₂ zone phone code codeType).world.store (failCountKey zone phone) := by
  have hgf₁ : getString w₁ (failCountKey zone phone) =
      .ok (((w₁.store (failCountKey zone phone)).map Prod.fst).getD "") := by
    simp [getString, hfr₁]
  have hgf₂ : getString w₂ (failCountKey zone phone) =
      .ok (((w₁.store (failCountKey zone phone)).map Prod.fst).getD "") := by
    simp [getString, hfr₂, hfeq]
  simp only [Verify, hnl₁, hnl₂, hc₁, hc₂, hf₁, hf₂, hgf₁, hgf₂, bne_self_eq_false,
    Bool.false_eq_true, reduceIte]
  by_cases h3 :
      int64Wrap
        (parseFailCount (((w₁.store (failCountKey zone phone)).map Prod.fst).getD "") + 1) ≥ 3
  · rw [if_pos h3, if_pos h3]
    simp only [setOp, hw₁, hw₂, Bool.false_eq_true, reduceIte]
    exact ⟨trivial, by simp [failCountKey_ne_lockKey zone phone, hfeq]⟩
  · rw [if_neg h3, if_neg h3]
    simp only [setOp, hw₁, hw₂, Bool.false_eq_true, reduceIte]
    exact ⟨trivial, by simp⟩

/-- Witness for C6: the empty world (code absent) versus the world storing
the wrong code "9999", both probed with "0000": same `InvalidCode` result
and the same failure count "1". -/
theorem C6_witness :
    w0.store (failCountKey "z" "p") = wWrongCode.store (failCountKey "z" "p") ∧
    (("" : String) != "" && constantTimeCompare "" "0000") = false ∧
    (("9999" : String) != "" && constantTimeCompare "9999" "0000") = false ∧
    ((Verify w0 "z" "p" "0000" 0).result = (Verify wWrongCode "z" "p" "0000" 0).result ∧
     (Verify w0 "z" "p" "0000" 0).world.store (failCountKey "z" "p") =
       (Verify wWrongCode "z" "p" "0000" 0).world.store (failCountKey "z" "p")) :=
  ⟨by decide, by decide, by decide,
   C6_absent_vs_wrong_identical w0 wWrongCode "z" "p" "0000" 0 (by decide) rfl rfl
     (fun _ => rfl) (fun _ => rfl) (by decide) (by decide) "" "9999" (by decide) (by decide)
     (by decide) (by decide)⟩

/-- Claim C9: (1) once the lock check passed and the stored code matches,
`Verify` returns success for every configuration of the delete fault
oracle — the results of the three deletes are never consulted; (2) when
every delete fails, the world is returned completely unchanged, so in
particular the matched code is still stored: success was reported without
the code having been consumed. -/
theorem C9_success_ignores_delete_failures :
    (∀ (w : World) (zone phone : String) (codeType : Int) (v : String),
      getString w (lockKey zone phone) = .ok "" →
      getString w (cacheKey codeType zone phone) = .ok v → v ≠ "" →
      (Verify w zone phone v codeType).result = .ok ()) ∧
    (∀ (w : World) (zone phone : String) (codeType : Int) (v : String),
      getString w (lockKey zone phone) = .ok "" →
      getString w (cacheKey codeType zone phone) = .ok v → v ≠ "" →
      (∀ k, w.delErr k = true) →
      (Verify w zone phone v codeType).world = w) := by
  constructor
  · intro w zone phone codeType v hnl hc hv
    have hb : (v != "" && constantTimeCompare v v) = true := by
      simp [constantTimeCompare, hv]
    simp only [Verify, hnl, hc, hb, bne_self_eq_false, Bool.false_eq_true, reduceIte, if_true]
  · intro w zone phone codeType v hnl hc hv hdel
    have hb : (v != "" && constantTimeCompare v v) = true := by
      simp [constantTimeCompare, hv]
    simp only [Verify, hnl, hc, hb, bne_self_eq_false, Bool.false_eq_true, reduceIte, if_true]
    simp [delOp, hdel]

/-- Witness for C9 at the world storing code "1234" whose deletes all fail:
`Verify` still reports success and the code entry survives. -/
theorem C9_witness :
    getString wDelErr (cacheKey 0 "z" "p") = .ok "1234" ∧
    (∀ k, wDelErr.delErr k = true) ∧
    (Verify wDelErr "z" "p" "1234" 0).result = .ok () ∧
    (Verify wDelErr "z" "p" "1234" 0).world = wDelErr :=
  ⟨by decide, fun _ => rfl,
   C9_success_ignores_delete_failures.1 wDelErr "z" "p" 0 "1234" (by decide) (by decide)
     (by decide),
   C9_success_ignores_delete_failures.2 wDelErr "z" "p" 0 "1234" (by decide) (by decide)
     (by decide) (fun _ => rfl)⟩

/-- Claim C10: on the failure path, (1) an error reading the stored failure
count and (2) a stored count that does not parse as an integer are both
silently treated as count 0: the recorded count becomes "1" (10-minute
TTL) and the caller sees the ordinary `InvalidCode` failure, with neither
condition reported. -/
theorem C10_count_read_defaults :
    (∀ (w : World) (zone phone code : String) (codeType : Int) (sysCode : String),
      getString w (lockKey zone phone) = .ok "" →
      getString w (cacheKey codeType zone phone) = .ok sysCode →
      (sysCode != "" && constantTimeCompare sysCode code) = false →
      w.readErr (failCountKey zone phone) = true →
      w.writeErr (failCountKey zone phone) = false →
      (Verify w zone phone code codeType).result = .error .invalidCode ∧
      (Verify w zone phone code codeType).world.store (failCountKey zone phone) =
        some ("1", 600)) ∧
    (∀ (w : World) (zone phone code : String) (codeType : Int) (sysCode fs : String),
      getString w (lockKey zone phone) = .ok "" →
      getString w (cacheKey codeType zone phone) = .ok sysCode →
      (sysCode != "" && constantTimeCompare sysCode code) = false →
      getString w (failCountKey zone phone) = .ok fs →
      atoi? fs = none →
      w.writeErr (failCountKey zone phone) = false →
      (Verify w zone phone code codeType).result = .error .invalidCode ∧
      (Verify w zone phone code codeType).world.store (failCountKey zone phone) =
        some ("1", 600)) := by
  constructor
  · intro w zone phone code codeType sysCode hnl hc hfail hre hwf
    have hgf : getString w (failCountKey zone phone) = .error () := by
      simp [getString, hre]
    simp only [Verify, hnl, hc, hfail, hgf, bne_self_eq_false, Bool.false_eq_true, reduceIte]
    rw [if_neg (by decide : ¬ int64Wrap (parseFailCount "" + 1) ≥ 3)]
    simp only [setOp, hwf, Bool.false_eq_true, reduceIte]
    constructor
    · trivial
    · have h1 : int64Wrap (parseFailCount "" + 1) = 1 := by decide
      simp only [h1]
      simp [show toString (1 : Int) = "1" by decide]
  · intro w zone phone code codeType sysCode fs hnl hc hfail hgf hparse hwf
    have h0 : parseFailCount fs = 0 := by
      by_cases hfs : (fs != "") = true
      · simp [parseFailCount, hfs, hparse]
      · simp [parseFailCount, hfs]
    have h1 : int64Wrap (parseFailCount fs + 1) = 1 := by
      rw [h0]
      decide
    simp only [Verify, hnl, hc, hfail, hgf, bne_self_eq_false, Bool.false_eq_true, reduceIte]
    rw [if_neg (by omega)]
    simp only [setOp, hwf, Bool.false_eq_true, reduceIte]
    constructor
    · trivial
    · simp only [h1]
      simp [show toString (1 : Int) = "1" by decide]

/-- Witness for C10: both cases — a faulted count read and the unparseable
stored count "abc" — each yield `InvalidCode` with the count rewritten to
"1". -/
theorem C10_witness :
    (wReadErrCount.readErr (failCountKey "z" "p") = true ∧
     (Verify wReadErrCount "z" "p" "0000" 0).result = .error .invalidCode ∧
     (Verify wReadErrCount "z" "p" "0000" 0).world.store (failCountKey "z" "p") =
       some ("1", 600)) ∧
    (atoi? "abc" = none ∧
     (Verify wBadCount "z" "p" "0000" 0).result = .error .invalidCode ∧
     (Verify wBadCount "z" "p" "0000" 0).world.store (failCountKey "z" "p") =
       some ("1", 600)) := by
  constructor
  · refine ⟨by decide, ?_, ?_⟩
    · exact (C10_count_read_defaults.1 wReadErrCount "z" "p" "0000" 0 "" (by decide)
        (by decide) (by decide) (by decide) rfl).1
    · exact (C10_count_read_defaults.1 wReadErrCount "z" "p" "0000" 0 "" (by decide)
        (by decide) (by decide) (by decide) rfl).2
  · refine ⟨by decide, ?_, ?_⟩
    · exact (C10_count_read_defaults.2 wBadCount "z" "p" "0000" 0 "" "abc" (by decide)
        (by decide) (by decide) (by decide) (by decide) rfl).1
    · exact (C10_count_read_defaults.2 wBadCount "z" "p" "0000" 0 "" "abc" (by decide)
        (by decide) (by decide) (by decide) (by decide) rfl).2

/-- Validation of the step decomposition: running the per-operation step
machine uninterrupted is exactly `Verify` — same result, same final
world.  The interleaving model therefore runs precisely the program's own
store operations. -/
theorem vExec_is_Verify (w : World) (zone phone code : String) (codeType : Int) :
    vExec zone phone code codeType w =
      (.halted (Verify w zone phone code codeType).result,
       (Verify w zone phone code codeType).world) := by
  rcases hl : getString w (lockKey zone phone) with u | locked
  · simp [vExec, vStep, Verify, hl]
  · by_cases hlk : (locked != "") = true
    · simp [vExec, vStep, Verify, hl, hlk]
    · rcases hc : getString w (cacheKey codeType zone phone) with u | sysCode
      · simp [vExec, vStep, Verify, hl, hlk, hc]
      · by_cases hm : (sysCode != "" && constantTimeCompare sysCode code) = true
        · simp [vExec, vStep, Verify, hl, hlk, hc, hm]
        · rcases hf : getString w (failCountKey zone phone) with u | fs
          · by_cases h3 : int64Wrap (parseFailCount "" + 1) ≥ 3
            · simp [vExec, vStep, Verify, hl, hlk, hc, hm, hf, h3]
            · simp [vExec, vStep, Verify, hl, hlk, hc, hm, hf, h3]
          · by_cases h3 : int64Wrap (parseFailCount fs + 1) ≥ 3
            · simp [vExec, vStep, Verify, hl, hlk, hc, hm, hf, h3]
            · simp [vExec, vStep, Verify, hl, hlk, hc, hm, hf, h3]

/-- Counterexample to claim C8: per-identity failure counting is NOT atomic.
Under the interleaving `staleSched`, two concurrent failed verifications
for ("z","p") on the empty store both complete with `InvalidCode` — two
recorded failures — yet the stored failure count afterwards is "1": both
calls read the stale count 0 before either write, under-counting the
total. -/
theorem C8_counterexample :
    (interleave2 "z" "p" "0000" 0 "0000" 0 staleSched .vstart .vstart w0).1 =
      .halted (.error .invalidCode) ∧
    (interleave2 "z" "p" "0000" 0 "0000" 0 staleSched .vstart .vstart w0).2.1 =
      .halted (.error .invalidCode) ∧
    (interleave2 "z" "p" "0000" 0 "0000" 0 staleSched .vstart .vstart w0).2.2.store
      (failCountKey "z" "p") = some ("1", 600) := by
  refine ⟨by decide, by decide, by decide⟩

/-- Claim C8 (amended): the failure-count update is a plain read-then-write
of two separate store operations, not an atomic unit: run back-to-back,
two failed verifications record the count "2", but under the interleaving
in which both read before either writes, the same two failed
verifications leave the count at "1" — an under-count. -/
theorem C8_plain_read_write_races :
    (Verify (Verify w0 "z" "p" "0000" 0).world "z" "p" "0000" 0).world.store
      (failCountKey "z" "p") = some ("2", 600) ∧
    (interleave2 "z" "p" "0000" 0 "0000" 0 staleSched .vstart .vstart w0).2.2.store
      (failCountKey "z" "p") = some ("1", 600) ∧
    (Verify w0 "z" "p" "0000" 0).trace =
      [.get (lockKey "z" "p"), .get (cacheKey 0 "z" "p"), .get (failCountKey "z" "p"),
       .set (failCountKey "z" "p") "1" 600] := by
  refine ⟨by decide, by decide, by decide⟩

end SMSSpec
